import Mathlib

/-!
Verification of the Movebank REST client (`MovebankAPI.py`).

The development shallowly embeds the two algorithmic cores of the script:

* `callMovebankAPI` — the two-phase license handshake (lines 27-58 of the
  source).  The HTTP layer is abstracted as a function from requests to
  responses; the request log is returned so that theorems can speak about
  which requests were issued, with which parameters, cookies and
  credentials.  MD5 is implemented bit-for-bit (RFC 1321) over byte lists.
* `transformRawACC` — the acceleration decoder (lines 136-187), including
  the calibration-slope selection (lines 154-163), burst timestamp
  interpolation via a datetime model (microseconds since the Unix epoch,
  with `strptime`/`strftime` for the fixed format '%Y-%m-%d %H:%M:%S.%f'),
  and the interleaved X,Y,Z demultiplexing.
* `transformRawGPS` — the GPS normalizer (lines 119-134) with its
  try/except control flow made explicit.

Python real arithmetic is modelled with `ℚ`; Python exceptions with
`Except`/`Option`.  Library functions (`int`, `float`, `str.split`,
`datetime.strptime`, `datetime.strftime`, `timedelta`) are modelled on the
input shapes the script feeds them (plain decimal notation; the exotic
accepted forms of Python `float` such as exponents, `inf`, `nan` play no
role here).
-/

namespace Movebank

/-! ## Models of Python library primitives -/

/-- Value of a list of decimal digit characters. -/
def digitsToNat (cs : List Char) : Nat :=
  cs.foldl (fun a c => a * 10 + (c.toNat - 48)) 0

/-- Model of Python `int(s)` on a decimal string: optional surrounding
whitespace, optional sign, then decimal digits. -/
def pyInt? (s : String) : Option Int :=
  let cs := s.trim.toList
  let p : Int × List Char :=
    match cs with
    | '-' :: rest => (-1, rest)
    | '+' :: rest => (1, rest)
    | _ => (1, cs)
  if p.2 ≠ [] ∧ p.2.all Char.isDigit then some (p.1 * (digitsToNat p.2 : Int))
  else none

/-- Model of Python `float(s)` on plain decimal notation: optional
surrounding whitespace, optional sign, an integer part and/or a fractional
part separated by a dot.  The result is the exact rational value. -/
def pyFloat? (s : String) : Option ℚ :=
  let cs := s.trim.toList
  let p : ℚ × List Char :=
    match cs with
    | '-' :: rest => (-1, rest)
    | '+' :: rest => (1, rest)
    | _ => (1, cs)
  let intPart := p.2.takeWhile Char.isDigit
  match p.2.dropWhile Char.isDigit with
  | [] => if intPart = [] then none else some (p.1 * (digitsToNat intPart : ℚ))
  | '.' :: frac =>
    if (intPart ≠ [] ∨ frac ≠ []) ∧ frac.all Char.isDigit then
      some (p.1 * ((digitsToNat intPart : ℚ) +
        (digitsToNat frac : ℚ) / (10 : ℚ) ^ frac.length))
    else none
  | _ => none

/-- Model of Python `s.split()` (no argument): split on whitespace runs,
dropping empty pieces. -/
def pySplitWS (s : String) : List String :=
  (s.split Char.isWhitespace).filter (fun t => !t.isEmpty)

/-! ## Datetime model

Python `datetime` values are modelled as microseconds since
1970-01-01 00:00:00 (an `Int`).  The civil-calendar conversions are the
standard era-based algorithms; `Int` division in Lean is floor division,
which is what they require. -/

def isLeapYear (y : Int) : Bool :=
  (y % 4 == 0 && y % 100 != 0) || y % 400 == 0

def daysInMonth (y m : Int) : Int :=
  if m = 2 then (if isLeapYear y then 29 else 28)
  else if m = 4 ∨ m = 6 ∨ m = 9 ∨ m = 11 then 30
  else 31

/-- Days since 1970-01-01 of the civil date `(y, m, d)`. -/
def daysFromCivil (y m d : Int) : Int :=
  let y2 := y - (if m ≤ 2 then 1 else 0)
  let era := y2 / 400
  let yoe := y2 - era * 400
  let mp := m + (if 2 < m then -3 else 9)
  let doy := (153 * mp + 2) / 5 + d - 1
  let doe := yoe * 365 + yoe / 4 - yoe / 100 + doy
  era * 146097 + doe - 719468

/-- Civil date `(y, m, d)` of a count of days since 1970-01-01. -/
def civilFromDays (z0 : Int) : Int × Int × Int :=
  let z := z0 + 719468
  let era := z / 146097
  let doe := z - era * 146097
  let yoe := (doe - doe / 1460 + doe / 36524 - doe / 146096) / 365
  let doy := doe - (365 * yoe + yoe / 4 - yoe / 100)
  let mp := (5 * doy + 2) / 153
  let d := doy - (153 * mp + 2) / 5 + 1
  let m := mp + (if mp < 10 then 3 else -9)
  (yoe + era * 400 + (if m ≤ 2 then 1 else 0), m, d)

/-- Take at most `max` leading digits, returning them and the rest.  This
matches the greedy bounded digit groups of CPython `_strptime`. -/
def splitDigits (max : Nat) (cs : List Char) : List Char × List Char :=
  let ds := (cs.takeWhile Char.isDigit).take max
  (ds, cs.drop ds.length)

def expectChar (c : Char) : List Char → Option (List Char)
  | x :: rest => if x = c then some rest else none
  | [] => none

/-- Parse a digit group of `lo` to `hi` digits followed by the literal
separator `sep`, as CPython `_strptime` matches one numeric directive and
the following literal of the format string. -/
def parseNumField (lo hi : Nat) (sep : Char) (cs : List Char) :
    Option (Nat × List Char) :=
  let p := splitDigits hi cs
  match expectChar sep p.2 with
  | none => none
  | some rest => if lo ≤ p.1.length then some (digitsToNat p.1, rest) else none

/-- Model of `datetime.strptime(s, '%Y-%m-%d %H:%M:%S.%f')`, returning the
parsed instant in microseconds since the epoch.  Field widths (`%Y` exactly
four digits, the others one or two), the 1-6 digit `%f` group (zero-padded
on the right to microseconds), the range checks of the `datetime`
constructor, and the rejection of trailing unconverted data all follow
CPython. -/
def strptime (s : String) : Option Int :=
  match parseNumField 4 4 '-' s.toList with
  | none => none
  | some (year, r1) =>
    match parseNumField 1 2 '-' r1 with
    | none => none
    | some (month, r2) =>
      match parseNumField 1 2 ' ' r2 with
      | none => none
      | some (day, r3) =>
        match parseNumField 1 2 ':' r3 with
        | none => none
        | some (hour, r4) =>
          match parseNumField 1 2 ':' r4 with
          | none => none
          | some (minute, r5) =>
            match parseNumField 1 2 '.' r5 with
            | none => none
            | some (sec, r6) =>
              let fsp := splitDigits 6 r6
              let micro := digitsToNat fsp.1 * 10 ^ (6 - fsp.1.length)
              if 1 ≤ fsp.1.length ∧ fsp.2 = [] ∧
                  1 ≤ year ∧ 1 ≤ month ∧ month ≤ 12 ∧
                  1 ≤ day ∧ (day : Int) ≤ daysInMonth year month ∧
                  hour ≤ 23 ∧ minute ≤ 59 ∧ sec ≤ 59 then
                some (((daysFromCivil year month day * 24 + hour) * 3600 +
                  minute * 60 + sec) * 1000000 + micro)
              else none

/-- Zero-padded fixed-width decimal rendering. -/
def padNum (width n : Nat) : String :=
  let s := toString n
  String.mk (List.replicate (width - s.length) '0') ++ s

/-- Model of `dt.strftime('%Y-%m-%d %H:%M:%S.%f')` on the instant `t`
(microseconds since the epoch; within `datetime`'s supported year range,
which is all this development evaluates it on). -/
def strftime (t : Int) : String :=
  let days := t / 86400000000
  let rem := (t % 86400000000).toNat
  let dmy := civilFromDays days
  let secOfDay := rem / 1000000
  padNum 4 dmy.1.toNat ++ "-" ++ padNum 2 dmy.2.1.toNat ++ "-" ++
    padNum 2 dmy.2.2.toNat ++ " " ++ padNum 2 (secOfDay / 3600) ++ ":" ++
    padNum 2 (secOfDay / 60 % 60) ++ ":" ++ padNum 2 (secOfDay % 60) ++ "." ++
    padNum 6 (rem % 1000000)

/-- Round a rational to the nearest integer, ties to even — the rounding
`datetime.timedelta` applies to fractional microseconds. -/
def roundHalfEven (q : ℚ) : Int :=
  let f := ⌊q⌋
  let r := q - f
  if r < 1/2 then f
  else if 1/2 < r then f + 1
  else if f % 2 = 0 then f else f + 1

/-- Model of `parsedts + timedelta(seconds = secs * x)` from line 175: the
offset in seconds is scaled to microseconds and rounded. -/
def addSeconds (t : Int) (secs : ℚ) : Int :=
  t + roundHalfEven (secs * 1000000)

/-! ## The acceleration decoder (`transformRawACC`, lines 136-187) -/

/-- The fields of one acceleration event row that the decoder reads.  All
fields arrive as strings from the CSV layer. -/
structure AccEvent where
  tag_local_identifier : String
  deployment_id : String
  timestamp : String
  acceleration_sampling_frequency_per_axis : String
  accelerations_raw : String
deriving DecidableEq, Inhabited

/-- Python exceptions `transformRawACC` can raise. -/
inductive AccError where
  /-- `accevents[0]` on an empty list (line 154). -/
  | indexError
  /-- `int()` / `float()` / `strptime` on an unparsable string. -/
  | valueError
  /-- `1 / float(...)` when the frequency is zero (line 167). -/
  | zeroDivisionError
deriving DecidableEq

/-- One output tuple `(ts_interpol, deployment, x, y, z)`. -/
abbrev AccSample := String × String × ℚ × ℚ × ℚ

/-- The calibration-slope selection of lines 155-163: the spec's
`CalibrationTable.slopeFor`.  `slope` starts at the 1st-generation
high-sensitivity constant and is overridden by the generation buckets. -/
def slopeFor (tag_local_identifier : Int) (sensitivity : String) : ℚ :=
  let slope : ℚ := 1/1000
  if tag_local_identifier ≤ 2241 then
    (if sensitivity = "low" then 27/10000 else slope)
  else if 2242 ≤ tag_local_identifier ∧ tag_local_identifier ≤ 4117 then
    22/10000
  else 1/512

/-- Grouping of the interleaved stream by `zip(it, it, it)` over a shared
iterator (line 180/185): consecutive triples, any trailing one or two
leftover values dropped. -/
def chunk3 : List Int → List (Int × Int × Int)
  | a :: b :: c :: rest => (a, b, c) :: chunk3 rest
  | _ => []

/-- `list(map(int, event['accelerations_raw'].split()))` (line 171). -/
def parseIntList (s : String) : Option (List Int) :=
  (pySplitWS s).mapM pyInt?

/-- The body of the `for event in accevents` loop (lines 165-186) for one
event, given the already-selected `slope` and `unitfactor`. -/
def processEvent (slope unitfactor : ℚ) (event : AccEvent) :
    Except AccError (List AccSample) :=
  let deploym := event.deployment_id
  match pyFloat? event.acceleration_sampling_frequency_per_axis with
  | none => .error .valueError
  | some freq =>
    if freq = 0 then .error .zeroDivisionError
    else
      let seconds := 1 / freq
      match strptime event.timestamp with
      | none => .error .valueError
      | some parsedts =>
        match parseIntList event.accelerations_raw with
        | none => .error .valueError
        | some raw =>
          let ts := (List.range (raw.length / 3)).map
            (fun x : Nat => addSeconds parsedts (seconds * (x : ℚ)))
          .ok ((ts.zip (chunk3 raw)).map (fun p =>
            (strftime p.1, deploym,
              ((p.2.1 - 2048 : Int) : ℚ) * slope * unitfactor,
              ((p.2.2.1 - 2048 : Int) : ℚ) * slope * unitfactor,
              ((p.2.2.2 - 2048 : Int) : ℚ) * slope * unitfactor)))

/-- Sequential processing of the batch: the loop appends one transformed
list per event and a raised exception aborts the whole call. -/
def mapExcept (f : AccEvent → Except AccError (List AccSample)) :
    List AccEvent → Except AccError (List (List AccSample))
  | [] => .ok []
  | e :: rest =>
    match f e with
    | .error err => .error err
    | .ok v =>
      match mapExcept f rest with
      | .error err => .error err
      | .ok vs => .ok (v :: vs)

/-- `transformRawACC` (lines 136-187).  The unit factor is chosen from
`unit`, the slope once from `accevents[0]['tag_local_identifier']`, and
then every event is processed with that slope. -/
def transformRawACC (accevents : List AccEvent)
    (unit : String := "m/s2") (sensitivity : String := "high") :
    Except AccError (List (List AccSample)) :=
  let unitfactor : ℚ := if unit = "g" then 1 else 981/100
  match accevents with
  | [] => .error .indexError
  | e0 :: _ =>
    match pyInt? e0.tag_local_identifier with
    | none => .error .valueError
    | some tag =>
      mapExcept (processEvent (slopeFor tag sensitivity) unitfactor) accevents

/-! ## The GPS normalizer (`transformRawGPS`, lines 119-134) -/

/-- A Python value that is either still the original string or a parsed
float. -/
inductive PyVal where
  | str (s : String)
  | num (q : ℚ)
deriving DecidableEq, Repr

/-- The fields of one GPS event row that the normalizer reads. -/
structure GPSEvent where
  timestamp : String
  deployment_id : String
  location_lat : String
  location_long : String
deriving DecidableEq, Inhabited

/-- The returned `(ts, deployment_id, lat, long)` tuple. -/
abbrev GPSFix := String × String × PyVal × PyVal

/-- The inner `transform(e)` of lines 123-132 with its `try`/`except`
control flow made explicit: the latitude is converted first; a `float`
failure there skips the longitude conversion as well (the exception jumps
out of the `try` block); a longitude failure leaves only the longitude
unconverted.  Empty fields are never fed to `float` and stay strings. -/
def transformGPSEvent (e : GPSEvent) : GPSFix :=
  let fields : PyVal × PyVal :=
    if 0 < e.location_lat.length then
      match pyFloat? e.location_lat with
      | none => (.str e.location_lat, .str e.location_long)
      | some la =>
        if 0 < e.location_long.length then
          match pyFloat? e.location_long with
          | none => (.num la, .str e.location_long)
          | some lo => (.num la, .num lo)
        else (.num la, .str e.location_long)
    else
      if 0 < e.location_long.length then
        match pyFloat? e.location_long with
        | none => (.str e.location_lat, .str e.location_long)
        | some lo => (.str e.location_lat, .num lo)
      else (.str e.location_lat, .str e.location_long)
  (e.timestamp, e.deployment_id, fields.1, fields.2)

/-- `transformRawGPS` (line 134): normalize every event. -/
def transformRawGPS (gpsevents : List GPSEvent) : List GPSFix :=
  gpsevents.map transformGPSEvent

/-! ## MD5 (RFC 1321)

`hashlib.md5(...).hexdigest()` over a byte list (each entry < 256), exactly
as the reference algorithm: padding to 56 mod 64, 64-bit little-endian bit
length, four 32-bit chain variables, 64 rounds per 512-bit block. -/

/-- The 64 round constants `K[i] = floor(2^32 * abs(sin(i + 1)))`. -/
def md5K : List Nat :=
  [0xd76aa478, 0xe8c7b756, 0x242070db, 0xc1bdceee,
   0xf57c0faf, 0x4787c62a, 0xa8304613, 0xfd469501,
   0x698098d8, 0x8b44f7af, 0xffff5bb1, 0x895cd7be,
   0x6b901122, 0xfd987193, 0xa679438e, 0x49b40821,
   0xf61e2562, 0xc040b340, 0x265e5a51, 0xe9b6c7aa,
   0xd62f105d, 0x02441453, 0xd8a1e681, 0xe7d3fbc8,
   0x21e1cde6, 0xc33707d6, 0xf4d50d87, 0x455a14ed,
   0xa9e3e905, 0xfcefa3f8, 0x676f02d9, 0x8d2a4c8a,
   0xfffa3942, 0x8771f681, 0x6d9d6122, 0xfde5380c,
   0xa4beea44, 0x4bdecfa9, 0xf6bb4b60, 0xbebfbc70,
   0x289b7ec6, 0xeaa127fa, 0xd4ef3085, 0x04881d05,
   0xd9d4d039, 0xe6db99e5, 0x1fa27cf8, 0xc4ac5665,
   0xf4292244, 0x432aff97, 0xab9423a7, 0xfc93a039,
   0x655b59c3, 0x8f0ccc92, 0xffeff47d, 0x85845dd1,
   0x6fa87e4f, 0xfe2ce6e0, 0xa3014314, 0x4e0811a1,
   0xf7537e82, 0xbd3af235, 0x2ad7d2bb, 0xeb86d391]

/-- The per-round left-rotation amounts. -/
def md5S : List Nat :=
  [7, 12, 17, 22, 7, 12, 17, 22, 7, 12, 17, 22, 7, 12, 17, 22,
   5, 9, 14, 20, 5, 9, 14, 20, 5, 9, 14, 20, 5, 9, 14, 20,
   4, 11, 16, 23, 4, 11, 16, 23, 4, 11, 16, 23, 4, 11, 16, 23,
   6, 10, 15, 21, 6, 10, 15, 21, 6, 10, 15, 21, 6, 10, 15, 21]

def mask32 : Nat := 4294967295

/-- 32-bit left rotation (on values < 2^32). -/
def rotl32 (x s : Nat) : Nat :=
  ((x <<< s) ||| (x >>> (32 - s))) % 4294967296

/-- `count` little-endian bytes of `n`. -/
def natToBytesLE (count n : Nat) : List Nat :=
  match count with
  | 0 => []
  | c + 1 => n % 256 :: natToBytesLE c (n / 256)

/-- Append the `0x80` byte, zero padding to 56 mod 64, and the 64-bit
little-endian bit length. -/
def md5Pad (msg : List Nat) : List Nat :=
  msg ++ 128 :: List.replicate ((119 - msg.length % 64) % 64) 0
      ++ natToBytesLE 8 (msg.length * 8)

/-- Split into 64-byte blocks. -/
def chunks64 : List Nat → List (List Nat)
  | [] => []
  | a :: rest => ((a :: rest).take 64) :: chunks64 (rest.drop 63)
termination_by l => l.length
decreasing_by
  simp only [List.length_drop, List.length_cons]
  omega

/-- The `g`-th 32-bit little-endian word of a 64-byte block. -/
def md5Words (chunk : List Nat) (g : Nat) : Nat :=
  chunk.getD (4 * g) 0 + 256 * chunk.getD (4 * g + 1) 0 +
    65536 * chunk.getD (4 * g + 2) 0 + 16777216 * chunk.getD (4 * g + 3) 0

/-- One of the 64 rounds on the state `(a, b, c, d)`. -/
def md5Round (M : Nat → Nat) (st : Nat × Nat × Nat × Nat) (i : Nat) :
    Nat × Nat × Nat × Nat :=
  let a := st.1
  let b := st.2.1
  let c := st.2.2.1
  let d := st.2.2.2
  let fg : Nat × Nat :=
    if i < 16 then ((b &&& c) ||| ((b ^^^ mask32) &&& d), i)
    else if i < 32 then ((d &&& b) ||| ((d ^^^ mask32) &&& c), (5 * i + 1) % 16)
    else if i < 48 then (b ^^^ c ^^^ d, (3 * i + 5) % 16)
    else (c ^^^ (b ||| (d ^^^ mask32)), (7 * i) % 16)
  let f := (fg.1 + a + md5K.getD i 0 + M fg.2) % 4294967296
  (d, (b + rotl32 f (md5S.getD i 0)) % 4294967296, b, c)

/-- Process one 64-byte block. -/
def md5ProcessChunk (st : Nat × Nat × Nat × Nat) (chunk : List Nat) :
    Nat × Nat × Nat × Nat :=
  let r := (List.range 64).foldl (md5Round (md5Words chunk)) st
  ((st.1 + r.1) % 4294967296, (st.2.1 + r.2.1) % 4294967296,
   (st.2.2.1 + r.2.2.1) % 4294967296, (st.2.2.2 + r.2.2.2) % 4294967296)

/-- The 16-byte MD5 digest of a byte list. -/
def md5Digest (msg : List Nat) : List Nat :=
  let st := (chunks64 (md5Pad msg)).foldl md5ProcessChunk
    (0x67452301, 0xefcdab89, 0x98badcfe, 0x10325476)
  natToBytesLE 4 st.1 ++ natToBytesLE 4 st.2.1 ++
    natToBytesLE 4 st.2.2.1 ++ natToBytesLE 4 st.2.2.2

def hexDigitChars : List Char :=
  (List.range 16).map (fun n => Char.ofNat (if n < 10 then 48 + n else 87 + n))

def hexChar (n : Nat) : Char := hexDigitChars.getD n '0'

/-- Two lowercase hex characters per byte. -/
def bytesToHexList : List Nat → List Char
  | [] => []
  | b :: rest => hexChar (b / 16 % 16) :: hexChar (b % 16) :: bytesToHexList rest

/-- `hashlib.md5(content).hexdigest()`: the lowercase hexadecimal MD5
digest of a byte list. -/
def md5hex (msg : List Nat) : String :=
  String.mk (bytesToHexList (md5Digest msg))

/-! ## The license-aware client (`callMovebankAPI`, lines 27-58)

The HTTP layer (`requests.get`) is abstracted as a function `server` from
requests to responses; `decodeUtf8` models `bytes.decode('utf-8')` and
`pyStr` models `str(bytes)`.  `callMovebankAPI` returns the value the
Python function returns together with the list of requests it issued, in
order, so that theorems can speak about the wire protocol. -/

/-- A response: status, raw body bytes, and session cookies. -/
structure HttpResponse where
  status_code : Nat
  content : List Nat
  cookies : List (String × String)
deriving DecidableEq, Inhabited

/-- A GET request to the fixed endpoint: ordered query parameters, the
cookies attached (if any), and the basic-auth credential pair. -/
structure HttpRequest where
  params : List (String × String)
  cookies : Option (List (String × String))
  auth : String × String
deriving DecidableEq, Inhabited

/-- The bytes of the marker `'License Terms:'`. -/
def licenseMarker : List Nat :=
  (String.toList "License Terms:").map Char.toNat

/-- Whether `pat` occurs as a contiguous byte run of the body.  This is
`'License Terms:' in str(response.content)` of line 38: the marker is
plain ASCII without escapes, so it occurs in the `str` form of the bytes
object exactly when it occurs in the bytes themselves. -/
def containsBytes (pat : List Nat) : List Nat → Bool
  | [] => pat.isEmpty
  | b :: rest => pat.isPrefixOf (b :: rest) || containsBytes pat rest

/-- The first request (lines 32-35): the given parameters, no cookies,
basic auth from the client's stored `username`/`password`. -/
def firstRequest (username password : String)
    (params : List (String × String)) : HttpRequest :=
  { params := params, cookies := none, auth := (username, password) }

/-- The license-acceptance request (lines 45-52): the original parameters
with `license-md5` appended, the first response's cookies attached, and
basic auth from the environment variables `mbus`/`mbpw`. -/
def secondRequest (resp : HttpResponse) (mbus mbpw : String)
    (params : List (String × String)) : HttpRequest :=
  { params := params ++ [("license-md5", md5hex resp.content)],
    cookies := some resp.cookies,
    auth := (mbus, mbpw) }

/-- `callMovebankAPI` (lines 27-58).  Returns the text result and the
requests issued. -/
def callMovebankAPI (server : HttpRequest → HttpResponse)
    (decodeUtf8 pyStr : List Nat → String)
    (username password mbus mbpw : String)
    (params : List (String × String)) : String × List HttpRequest :=
  let req1 := firstRequest username password params
  let response := server req1
  if response.status_code = 200 then
    if containsBytes licenseMarker response.content then
      let req2 := secondRequest response mbus mbpw params
      let response2 := server req2
      if response2.status_code = 403 then ("", [req1, req2])
      else (decodeUtf8 response2.content, [req1, req2])
    else (decodeUtf8 response.content, [req1])
  else (pyStr response.content, [req1])

instance {ε α : Type} [DecidableEq ε] [DecidableEq α] :
    DecidableEq (Except ε α) := fun a b =>
  match a, b with
  | .error e1, .error e2 => decidable_of_iff (e1 = e2) (by simp)
  | .error _, .ok _ => isFalse (by simp)
  | .ok _, .error _ => isFalse (by simp)
  | .ok a1, .ok a2 => decidable_of_iff (a1 = a2) (by simp)

instance : DecidableEq (List AccSample) := instDecidableEqList

instance : DecidableEq (List (List AccSample)) := instDecidableEqList

instance : DecidableEq (Except AccError (List (List AccSample))) :=
  inferInstance

instance : DecidableEq (List GPSFix) := instDecidableEqList

/-! ## Test fixtures

Concrete rows used by the witnesses and counterexamples. -/

/-- A 1st-generation tag (id 1000), 3-sample burst at 10 Hz; the first
raw value is offset by +100 from the zero bias, the rest sit at the bias. -/
def accEventGen1 : AccEvent :=
  ⟨"1000", "7", "2020-01-01 00:00:00.000000", "10",
   "2148 2048 2048 2048 2048 2048 2048 2048 2048"⟩

/-- A later-generation tag (id 5000) with a single triple offset by +100
on the X axis. -/
def accEventGen3 : AccEvent :=
  ⟨"5000", "8", "2020-01-01 00:00:00.000000", "10", "2148 2048 2048"⟩

/-- A burst whose raw count (4) is not divisible by three. -/
def accEventRagged : AccEvent :=
  ⟨"1000", "7", "2020-01-01 00:00:00.000000", "10", "1 2 3 4"⟩

/-- A burst whose sampling frequency is zero. -/
def accEventZeroFreq : AccEvent :=
  ⟨"1000", "7", "2020-01-01 00:00:00.000000", "0", "1 2 3"⟩

/-- A burst sitting entirely at the ADC zero bias 2048. -/
def accEventZero : AccEvent :=
  ⟨"1000", "7", "2020-01-01 00:00:00.000000", "10", "2048 2048 2048"⟩

/-- The spec's interpolation example: 9 raw integers (3 samples) at 10 Hz
starting at 2020-01-01 00:00:00.000000. -/
def accEventBurst : AccEvent :=
  ⟨"1000", "7", "2020-01-01 00:00:00.000000", "10", "1 2 3 4 5 6 7 8 9"⟩

/-- The decoded samples of `accEventBurst` for slope 1/1000 and unit
factor 1. -/
def burstSamples : List AccSample :=
  [("2020-01-01 00:00:00.000000", "7", -2047/1000, -2046/1000, -2045/1000),
   ("2020-01-01 00:00:00.100000", "7", -2044/1000, -2043/1000, -2042/1000),
   ("2020-01-01 00:00:00.200000", "7", -2041/1000, -2040/1000, -2039/1000)]

/-- A license-terms body. -/
def licenseBody : List Nat :=
  (String.toList "License Terms: be nice to the birds").map Char.toNat

/-- A data body for the second leg. -/
def dataBody : List Nat :=
  (String.toList "timestamp,deployment_id").map Char.toNat

/-- A server that answers the cookie-less first request with a 200
license-terms challenge and any cookie-carrying request with data. -/
def serverLicense : HttpRequest → HttpResponse := fun req =>
  if req.cookies = none then ⟨200, licenseBody, [("sid", "42")]⟩
  else ⟨200, dataBody, []⟩

/-- A server that presents license terms and then rejects the hash with
403. -/
def serverReject : HttpRequest → HttpResponse := fun req =>
  if req.cookies = none then ⟨200, licenseBody, [("sid", "42")]⟩
  else ⟨403, [], []⟩

/-- A decode function for instantiating the abstract text decoding. -/
def trivialDecode : List Nat → String := fun _ => ""

end Movebank

namespace Movebank

/-! ## Helper lemmas -/

theorem chunk3_length : ∀ l : List Int, (chunk3 l).length = l.length / 3
  | _ :: _ :: _ :: rest => by
    have ih := chunk3_length rest
    simp only [chunk3, List.length_cons, ih]
    omega
  | [] => by simp [chunk3]
  | [_] => by simp [chunk3]
  | [_, _] => by simp [chunk3]

theorem chunk3_getD : ∀ (l : List Int) (i : Nat), i < (chunk3 l).length →
    (chunk3 l).getD i (0, 0, 0) =
      (l.getD (3 * i) 0, l.getD (3 * i + 1) 0, l.getD (3 * i + 2) 0)
  | a :: b :: c :: rest, 0, _ => by simp [chunk3]
  | a :: b :: c :: rest, i + 1, h => by
    have hi : i < (chunk3 rest).length := by
      simpa [chunk3] using Nat.lt_of_succ_lt_succ h
    have ih := chunk3_getD rest i hi
    have g1 : (a :: b :: c :: rest).getD (3 * (i + 1)) 0 = rest.getD (3 * i) 0 := by
      have e : 3 * (i + 1) = 3 * i + 1 + 1 + 1 := by omega
      rw [e]
      simp [List.getD_cons_succ]
    have g2 : (a :: b :: c :: rest).getD (3 * (i + 1) + 1) 0 =
        rest.getD (3 * i + 1) 0 := by
      have e : 3 * (i + 1) + 1 = 3 * i + 1 + 1 + 1 + 1 := by omega
      rw [e]
      simp [List.getD_cons_succ]
    have g3 : (a :: b :: c :: rest).getD (3 * (i + 1) + 2) 0 =
        rest.getD (3 * i + 2) 0 := by
      have e : 3 * (i + 1) + 2 = 3 * i + 2 + 1 + 1 + 1 := by omega
      rw [e]
      simp [List.getD_cons_succ]
    simp only [chunk3]
    rw [List.getD_cons_succ, ih, g1, g2, g3]
  | [], i, h => by simp [chunk3] at h
  | [_], i, h => by simp [chunk3] at h
  | [_, _], i, h => by simp [chunk3] at h

theorem getD_map_lt {α β : Type} (g : α → β) (L : List α) (i : Nat)
    (h : i < L.length) (d : β) (d' : α) :
    (L.map g).getD i d = g (L.getD i d') := by
  rw [List.getD_eq_getElem?_getD, List.getD_eq_getElem?_getD,
    List.getElem?_map, List.getElem?_eq_getElem h]
  rfl

theorem getD_zip_lt {α β : Type} (A : List α) (B : List β) (i : Nat)
    (hA : i < A.length) (hB : i < B.length) (da : α) (db : β) :
    (A.zip B).getD i (da, db) = (A.getD i da, B.getD i db) := by
  rw [List.getD_eq_getElem?_getD, List.getD_eq_getElem?_getD,
    List.getD_eq_getElem?_getD]
  have hz : (A.zip B)[i]? = some (A[i], B[i]) := by
    rw [List.getElem?_zip_eq_some]
    exact ⟨List.getElem?_eq_getElem hA, List.getElem?_eq_getElem hB⟩
  rw [hz, List.getElem?_eq_getElem hA, List.getElem?_eq_getElem hB]
  rfl

theorem getD_range_lt (n i : Nat) (h : i < n) (d : Nat) :
    (List.range n).getD i d = i := by
  rw [List.getD_eq_getElem?_getD, List.getElem?_range h]
  rfl

theorem mapExcept_ok_length (f : AccEvent → Except AccError (List AccSample)) :
    ∀ (evs : List AccEvent) (out : List (List AccSample)),
      mapExcept f evs = .ok out → out.length = evs.length
  | [], out, h => by
    simp only [mapExcept] at h
    cases h
    rfl
  | e :: rest, out, h => by
    simp only [mapExcept] at h
    cases hf : f e with
    | error err => rw [hf] at h; cases h
    | ok v =>
      rw [hf] at h
      cases hr : mapExcept f rest with
      | error err => rw [hr] at h; cases h
      | ok vs =>
        rw [hr] at h
        cases h
        simp [mapExcept_ok_length f rest vs hr]

theorem mapExcept_ok_getD (f : AccEvent → Except AccError (List AccSample)) :
    ∀ (evs : List AccEvent) (out : List (List AccSample)),
      mapExcept f evs = .ok out → ∀ i, i < evs.length →
        f (evs.getD i default) = .ok (out.getD i [])
  | [], _, _, i, hi => by simp at hi
  | e :: rest, out, h, i, hi => by
    simp only [mapExcept] at h
    cases hf : f e with
    | error err => rw [hf] at h; cases h
    | ok v =>
      rw [hf] at h
      cases hr : mapExcept f rest with
      | error err => rw [hr] at h; cases h
      | ok vs =>
        rw [hr] at h
        cases h
        cases i with
        | zero => simpa using hf
        | succ j =>
          have hj : j < rest.length := by simpa using hi
          simpa using mapExcept_ok_getD f rest vs hr j hj

/-- Characterization of a successful `processEvent`: all four parses
succeeded, the frequency is non-zero, and the output is the mapped zip of
interpolated timestamps with the raw triples. -/
theorem processEvent_ok_parts (slope uf : ℚ) (e : AccEvent)
    (smp : List AccSample) (hok : processEvent slope uf e = .ok smp) :
    ∃ f T l, pyFloat? e.acceleration_sampling_frequency_per_axis = some f ∧
      ¬f = 0 ∧ strptime e.timestamp = some T ∧
      parseIntList e.accelerations_raw = some l ∧
      smp = (((List.range (l.length / 3)).map
          (fun x : Nat => addSeconds T (1 / f * (x : ℚ)))).zip (chunk3 l)).map
        (fun p =>
          (strftime p.1, e.deployment_id,
            ((p.2.1 - 2048 : Int) : ℚ) * slope * uf,
            ((p.2.2.1 - 2048 : Int) : ℚ) * slope * uf,
            ((p.2.2.2 - 2048 : Int) : ℚ) * slope * uf)) := by
  unfold processEvent at hok
  cases hf : pyFloat? e.acceleration_sampling_frequency_per_axis with
  | none => rw [hf] at hok; cases hok
  | some f =>
    rw [hf] at hok
    dsimp only at hok
    by_cases hz : f = 0
    · rw [if_pos hz] at hok; cases hok
    · rw [if_neg hz] at hok
      cases hT : strptime e.timestamp with
      | none => rw [hT] at hok; cases hok
      | some T =>
        rw [hT] at hok
        dsimp only at hok
        cases hl : parseIntList e.accelerations_raw with
        | none => rw [hl] at hok; cases hok
        | some l =>
          rw [hl] at hok
          dsimp only at hok
          cases hok
          exact ⟨f, T, l, rfl, hz, rfl, rfl, rfl⟩

/-- A successful record yields exactly `⌊raw count / 3⌋` samples. -/
theorem processEvent_ok_length (slope uf : ℚ) (e : AccEvent)
    (smp : List AccSample) (l : List Int)
    (hok : processEvent slope uf e = .ok smp)
    (hl : parseIntList e.accelerations_raw = some l) :
    smp.length = l.length / 3 := by
  obtain ⟨f, T, l', _, _, _, hl', hsmp⟩ :=
    processEvent_ok_parts slope uf e smp hok
  rw [hl] at hl'
  cases hl'
  rw [hsmp]
  simp [List.length_zip, chunk3_length]

/-- The `i`-th sample of a successful record, fully decomposed. -/
theorem processEvent_ok_sample (slope uf : ℚ) (e : AccEvent)
    (smp : List AccSample) (f : ℚ) (T : Int) (l : List Int)
    (hok : processEvent slope uf e = .ok smp)
    (hf : pyFloat? e.acceleration_sampling_frequency_per_axis = some f)
    (hT : strptime e.timestamp = some T)
    (hl : parseIntList e.accelerations_raw = some l)
    (i : Nat) (hi : i < smp.length) :
    smp.getD i default =
      (strftime (addSeconds T (1 / f * (i : ℚ))), e.deployment_id,
        ((l.getD (3 * i) 0 - 2048 : Int) : ℚ) * slope * uf,
        ((l.getD (3 * i + 1) 0 - 2048 : Int) : ℚ) * slope * uf,
        ((l.getD (3 * i + 2) 0 - 2048 : Int) : ℚ) * slope * uf) := by
  obtain ⟨f', T', l', hf', _, hT', hl', hsmp⟩ :=
    processEvent_ok_parts slope uf e smp hok
  rw [hf] at hf'; cases hf'
  rw [hT] at hT'; cases hT'
  rw [hl] at hl'; cases hl'
  have hzl : (((List.range (l.length / 3)).map
      (fun x : Nat => addSeconds T (1 / f * (x : ℚ)))).zip (chunk3 l)).length =
      l.length / 3 := by
    simp [List.length_zip, chunk3_length]
  have hi3 : i < l.length / 3 := by
    rw [hsmp, List.length_map, hzl] at hi
    exact hi
  rw [hsmp]
  rw [getD_map_lt _ _ i (by rw [hzl]; exact hi3) default (0, (0, 0, 0))]
  rw [getD_zip_lt _ _ i (by simpa using hi3) (by rw [chunk3_length]; exact hi3) 0 (0, 0, 0)]
  rw [getD_map_lt _ _ i (by simpa using hi3) 0 0]
  rw [getD_range_lt _ _ hi3 0]
  rw [chunk3_getD l i (by rw [chunk3_length]; exact hi3)]

/-- Characterization of a successful `transformRawACC`: the batch is
non-empty, the head's tag parses, and every record was processed with the
slope selected from the head record's tag, producing one output list per
record in order. -/
theorem transformRawACC_ok (evs : List AccEvent) (unit sensitivity : String)
    (out : List (List AccSample))
    (hok : transformRawACC evs unit sensitivity = .ok out) :
    ∃ e0 t0, evs.head? = some e0 ∧ pyInt? e0.tag_local_identifier = some t0 ∧
      out.length = evs.length ∧
      ∀ i, i < evs.length →
        processEvent (slopeFor t0 sensitivity)
          (if unit = "g" then (1 : ℚ) else 981/100) (evs.getD i default) =
          .ok (out.getD i []) := by
  unfold transformRawACC at hok
  cases evs with
  | nil => cases hok
  | cons e0 rest =>
    dsimp only at hok
    cases ht : pyInt? e0.tag_local_identifier with
    | none => rw [ht] at hok; cases hok
    | some t0 =>
      rw [ht] at hok
      exact ⟨e0, t0, rfl, ht, mapExcept_ok_length _ _ _ hok,
        fun i hi => mapExcept_ok_getD _ _ _ hok i hi⟩

/-! ## Claim C2: the calibration table -/

/-- Claim C2: for every integer tag identifier and sensitivity mode the
slope follows the generation table — at most 2241 the slope is 0.0027 for
low sensitivity and 0.001 for high; between 2242 and 4117 it is 0.0022
regardless of sensitivity; above 4117 it is 1/512 regardless of
sensitivity; and every integer tag id falls into exactly one of the three
buckets. -/
theorem claim_C2 (t : Int) (s : String) :
    (t ≤ 2241 → slopeFor t "low" = 27/10000 ∧ slopeFor t "high" = 1/1000) ∧
    (2242 ≤ t ∧ t ≤ 4117 → slopeFor t s = 22/10000) ∧
    (4117 < t → slopeFor t s = 1/512) ∧
    ((t ≤ 2241 ∧ ¬(2242 ≤ t ∧ t ≤ 4117) ∧ ¬4117 < t) ∨
     (¬t ≤ 2241 ∧ (2242 ≤ t ∧ t ≤ 4117) ∧ ¬4117 < t) ∨
     (¬t ≤ 2241 ∧ ¬(2242 ≤ t ∧ t ≤ 4117) ∧ 4117 < t)) := by
  refine ⟨fun h => ?_, fun h => ?_, fun h => ?_, by omega⟩
  · constructor <;> simp [slopeFor, h]
  · have h1 : ¬t ≤ 2241 := by omega
    simp [slopeFor, h1, h.1, h.2]
  · have h1 : ¬t ≤ 2241 := by omega
    have h2 : ¬(2242 ≤ t ∧ t ≤ 4117) := by omega
    simp [slopeFor, h1, h2]

/-- Witness for C2 at tag ids 1000, 3000 and 5000. -/
theorem claim_C2_witness :
    (slopeFor 1000 "low" = 27/10000 ∧ slopeFor 1000 "high" = 1/1000) ∧
    slopeFor 3000 "whatever" = 22/10000 ∧
    slopeFor 5000 "low" = 1/512 :=
  ⟨(claim_C2 1000 "x").1 (by decide),
   (claim_C2 3000 "whatever").2.1 (by decide),
   (claim_C2 5000 "low").2.2.1 (by decide)⟩

/-! ## Claim C10: the decoder is partial on the empty batch -/

/-- Claim C10: on the empty batch `transformRawACC` raises (the subscript
`accevents[0]` fails with an index error) instead of returning an empty
output, so every successful call has at least one input record. -/
theorem claim_C10 (unit sensitivity : String) :
    transformRawACC [] unit sensitivity = .error .indexError ∧
    ∀ evs out, transformRawACC evs unit sensitivity = .ok out → evs ≠ [] := by
  constructor
  · rfl
  · intro evs out h hemp
    subst hemp
    cases h

/-! ## Claim C3: the per-axis decoding formula -/

/-- Claim C3: for every raw triple, slope and unit argument, each emitted
axis value is `(raw − 2048) × slope × unit_factor`, with the unit factor 1
for `"g"` and 9.81 otherwise. -/
theorem claim_C3 (slope : ℚ) (unit : String) (e : AccEvent)
    (smp : List AccSample) (l : List Int)
    (hok : processEvent slope (if unit = "g" then (1 : ℚ) else 981/100) e =
      .ok smp)
    (hl : parseIntList e.accelerations_raw = some l)
    (i : Nat) (hi : i < smp.length) :
    (smp.getD i default).2.2.1 =
      ((l.getD (3 * i) 0 : ℚ) - 2048) * slope *
        (if unit = "g" then (1 : ℚ) else 981/100) ∧
    (smp.getD i default).2.2.2.1 =
      ((l.getD (3 * i + 1) 0 : ℚ) - 2048) * slope *
        (if unit = "g" then (1 : ℚ) else 981/100) ∧
    (smp.getD i default).2.2.2.2 =
      ((l.getD (3 * i + 2) 0 : ℚ) - 2048) * slope *
        (if unit = "g" then (1 : ℚ) else 981/100) := by
  obtain ⟨f, T, l', hf, hz, hT, hl', hsmp⟩ :=
    processEvent_ok_parts slope _ e smp hok
  have hs := processEvent_ok_sample slope _ e smp f T l hok hf hT hl i hi
  rw [hs]
  refine ⟨?_, ?_, ?_⟩ <;> push_cast <;> ring

set_option maxRecDepth 100000 in
/-- Witness for C3: a burst sitting at the zero bias decodes to zero on
every axis for slope 5 in m/s², and the formula instance evaluates to 0. -/
theorem claim_C3_witness :
    (([("2020-01-01 00:00:00.000000", "7", (0 : ℚ), 0, 0)] :
        List AccSample).getD 0 default).2.2.1 =
      ((([2048, 2048, 2048] : List Int).getD 0 0 : ℚ) - 2048) * 5 *
        (if "m/s2" = "g" then (1 : ℚ) else 981/100) ∧
    ((([2048, 2048, 2048] : List Int).getD 0 0 : ℚ) - 2048) * 5 *
        (if "m/s2" = "g" then (1 : ℚ) else 981/100) = 0 :=
  ⟨(claim_C3 5 "m/s2" accEventZero
      [("2020-01-01 00:00:00.000000", "7", 0, 0, 0)] [2048, 2048, 2048]
      (by with_unfolding_all rfl) (by with_unfolding_all rfl) 0
      (by decide)).1,
   by norm_num⟩

/-! ## Claim C4: timestamp interpolation -/

/-- Claim C4: the `i`-th emitted sample of a burst carries the start
timestamp advanced by `i × (1/f)` seconds, re-rendered through `strftime`
in the fixed format. -/
theorem claim_C4 (slope uf : ℚ) (e : AccEvent) (smp : List AccSample)
    (f : ℚ) (T : Int)
    (hok : processEvent slope uf e = .ok smp)
    (hf : pyFloat? e.acceleration_sampling_frequency_per_axis = some f)
    (hT : strptime e.timestamp = some T)
    (i : Nat) (hi : i < smp.length) :
    (smp.getD i default).1 = strftime (addSeconds T ((i : ℚ) * (1 / f))) := by
  obtain ⟨f', T', l', hf', hz, hT', hl', hsmp⟩ :=
    processEvent_ok_parts slope uf e smp hok
  have hs := processEvent_ok_sample slope uf e smp f T l' hok hf hT hl' i hi
  rw [hs, mul_comm ((i : ℚ)) (1 / f)]

set_option maxRecDepth 100000 in
/-- Witness for C4: the spec's example — 3 samples at 10 Hz from
2020-01-01 00:00:00.000000 get timestamps at offsets 0, 0.1 and 0.2
seconds. -/
theorem claim_C4_witness :
    (burstSamples.getD 0 default).1 =
      strftime (addSeconds 1577836800000000 ((0 : ℚ) * (1 / 10))) ∧
    (burstSamples.getD 1 default).1 =
      strftime (addSeconds 1577836800000000 ((1 : ℚ) * (1 / 10))) ∧
    (burstSamples.getD 2 default).1 =
      strftime (addSeconds 1577836800000000 ((2 : ℚ) * (1 / 10))) ∧
    strftime (addSeconds 1577836800000000 ((0 : ℚ) * (1 / 10))) =
      "2020-01-01 00:00:00.000000" ∧
    strftime (addSeconds 1577836800000000 ((1 : ℚ) * (1 / 10))) =
      "2020-01-01 00:00:00.100000" ∧
    strftime (addSeconds 1577836800000000 ((2 : ℚ) * (1 / 10))) =
      "2020-01-01 00:00:00.200000" :=
  ⟨claim_C4 (1/1000) 1 accEventBurst burstSamples 10 1577836800000000
      (by with_unfolding_all rfl) (by with_unfolding_all rfl)
      (by with_unfolding_all rfl) 0 (by decide),
   claim_C4 (1/1000) 1 accEventBurst burstSamples 10 1577836800000000
      (by with_unfolding_all rfl) (by with_unfolding_all rfl)
      (by with_unfolding_all rfl) 1 (by decide),
   claim_C4 (1/1000) 1 accEventBurst burstSamples 10 1577836800000000
      (by with_unfolding_all rfl) (by with_unfolding_all rfl)
      (by with_unfolding_all rfl) 2 (by decide),
   by with_unfolding_all rfl,
   by with_unfolding_all rfl,
   by with_unfolding_all rfl⟩

/-! ## Claim C5: batch slope selection -/

set_option maxRecDepth 100000 in
/-- Counterexample to C5: in a batch whose first record has tag 1000 and
whose second has tag 5000, the second record is decoded with the FIRST
record's slope 0.001 (x = 0.1 g for raw 2148), not with its own bucket's
slope 1/512 (which would give 25/128 g). -/
theorem claim_C5_counterexample :
    transformRawACC [accEventGen1, accEventGen3] "g" "high" =
      .ok [[("2020-01-01 00:00:00.000000", "7", 1/10, 0, 0),
            ("2020-01-01 00:00:00.100000", "7", 0, 0, 0),
            ("2020-01-01 00:00:00.200000", "7", 0, 0, 0)],
           [("2020-01-01 00:00:00.000000", "8", 1/10, 0, 0)]] ∧
    pyInt? accEventGen3.tag_local_identifier = some 5000 ∧
    slopeFor 5000 "high" = 1/512 ∧
    ((2148 - 2048 : ℚ)) * slopeFor 5000 "high" * 1 = 25/128 ∧
    ((1 : ℚ)/10 ≠ 25/128) := by
  refine ⟨?_, ?_, ?_, ?_, ?_⟩
  · with_unfolding_all rfl
  · with_unfolding_all rfl
  · norm_num [slopeFor]
  · norm_num [slopeFor]
  · norm_num

/-- Claim C5 as amended: the slope is looked up once, from the FIRST
record's `tag_local_identifier` and the requested sensitivity, and applied
to every record of the batch; the result still contains one sequence of
samples per input record, in input order. -/
theorem claim_C5_amended (evs : List AccEvent) (unit sensitivity : String)
    (out : List (List AccSample))
    (hok : transformRawACC evs unit sensitivity = .ok out) :
    ∃ e0 t0, evs.head? = some e0 ∧ pyInt? e0.tag_local_identifier = some t0 ∧
      out.length = evs.length ∧
      ∀ i, i < evs.length →
        processEvent (slopeFor t0 sensitivity)
          (if unit = "g" then (1 : ℚ) else 981/100) (evs.getD i default) =
          .ok (out.getD i []) :=
  transformRawACC_ok evs unit sensitivity out hok

set_option maxRecDepth 100000 in
/-- Witness for the amended C5 on the two-generation batch. -/
theorem claim_C5_amended_witness :
    ∃ e0 t0, ([accEventGen1, accEventGen3].head? = some e0) ∧
      pyInt? e0.tag_local_identifier = some t0 ∧
      ([[("2020-01-01 00:00:00.000000", "7", (1 : ℚ)/10, 0, 0),
         ("2020-01-01 00:00:00.100000", "7", 0, 0, 0),
         ("2020-01-01 00:00:00.200000", "7", 0, 0, 0)],
        [("2020-01-01 00:00:00.000000", "8", 1/10, 0, 0)]] :
          List (List AccSample)).length =
        [accEventGen1, accEventGen3].length ∧
      ∀ i, i < [accEventGen1, accEventGen3].length →
        processEvent (slopeFor t0 "high")
          (if "g" = "g" then (1 : ℚ) else 981/100)
          ([accEventGen1, accEventGen3].getD i default) =
          .ok (([[("2020-01-01 00:00:00.000000", "7", (1 : ℚ)/10, 0, 0),
                  ("2020-01-01 00:00:00.100000", "7", 0, 0, 0),
                  ("2020-01-01 00:00:00.200000", "7", 0, 0, 0)],
                 [("2020-01-01 00:00:00.000000", "8", 1/10, 0, 0)]] :
                   List (List AccSample)).getD i []) :=
  claim_C5_amended [accEventGen1, accEventGen3] "g" "high"
    [[("2020-01-01 00:00:00.000000", "7", 1/10, 0, 0),
      ("2020-01-01 00:00:00.100000", "7", 0, 0, 0),
      ("2020-01-01 00:00:00.200000", "7", 0, 0, 0)],
     [("2020-01-01 00:00:00.000000", "8", 1/10, 0, 0)]]
    (by with_unfolding_all decide)

/-! ## Claim C6: malformed payloads -/

set_option maxRecDepth 100000 in
/-- Counterexample to C6: a raw count of 4 (not divisible by three) does
NOT fail loudly — the trailing value is silently dropped and the record
succeeds; and a zero sampling frequency is NOT isolated to its record —
it aborts the whole batch, including the healthy sibling. -/
theorem claim_C6_counterexample :
    transformRawACC [accEventRagged] "g" "high" =
      .ok [[("2020-01-01 00:00:00.000000", "7",
             -2047/1000, -1023/500, -409/200)]] ∧
    parseIntList accEventRagged.accelerations_raw = some [1, 2, 3, 4] ∧
    (4 % 3 ≠ 0) ∧
    transformRawACC [accEventGen1, accEventZeroFreq] "g" "high" =
      .error .zeroDivisionError := by
  refine ⟨?_, ?_, ?_, ?_⟩
  · with_unfolding_all rfl
  · with_unfolding_all rfl
  · decide
  · with_unfolding_all rfl

/-- Claim C6 as amended: a successful batch call requires every record's
frequency to parse to a non-zero value (equivalently, a bad frequency in
any record aborts the whole call, siblings included, because the Python
exception propagates out of the loop), and each record contributes exactly
`⌊raw count / 3⌋` samples — a count not divisible by three is silently
truncated, never signalled. -/
theorem claim_C6_amended (evs : List AccEvent) (unit sensitivity : String)
    (out : List (List AccSample))
    (hok : transformRawACC evs unit sensitivity = .ok out) :
    out.length = evs.length ∧
    ∀ i, i < evs.length → ∃ f T l,
      pyFloat? (evs.getD i default).acceleration_sampling_frequency_per_axis
        = some f ∧ ¬f = 0 ∧
      strptime (evs.getD i default).timestamp = some T ∧
      parseIntList (evs.getD i default).accelerations_raw = some l ∧
      (out.getD i []).length = l.length / 3 := by
  obtain ⟨e0, t0, _, _, hlen, hall⟩ :=
    transformRawACC_ok evs unit sensitivity out hok
  refine ⟨hlen, fun i hi => ?_⟩
  obtain ⟨f, T, l, hf, hz, hT, hl, _⟩ :=
    processEvent_ok_parts _ _ _ _ (hall i hi)
  exact ⟨f, T, l, hf, hz, hT, hl,
    processEvent_ok_length _ _ _ _ l (hall i hi) hl⟩

set_option maxRecDepth 100000 in
/-- Witness for the amended C6 on the ragged singleton batch: 4 raw values
yield one sample. -/
theorem claim_C6_amended_witness :
    ([[("2020-01-01 00:00:00.000000", "7",
        (-2047 : ℚ)/1000, -1023/500, -409/200)]] :
      List (List AccSample)).length = [accEventRagged].length ∧
    ∀ i, i < [accEventRagged].length → ∃ f T l,
      pyFloat? ([accEventRagged].getD i
        default).acceleration_sampling_frequency_per_axis = some f ∧
      ¬f = 0 ∧
      strptime ([accEventRagged].getD i default).timestamp = some T ∧
      parseIntList ([accEventRagged].getD i default).accelerations_raw
        = some l ∧
      (([[("2020-01-01 00:00:00.000000", "7",
           (-2047 : ℚ)/1000, -1023/500, -409/200)]] :
         List (List AccSample)).getD i []).length = l.length / 3 :=
  claim_C6_amended [accEventRagged] "g" "high"
    [[("2020-01-01 00:00:00.000000", "7", -2047/1000, -1023/500, -409/200)]]
    (by with_unfolding_all rfl)

set_option maxRecDepth 100000 in
/-- Witness for C10: the empty batch errors while the singleton batch
`[accEventGen1]` is a successful, hence non-empty, call. -/
theorem claim_C10_witness :
    transformRawACC [] "m/s2" "high" = .error .indexError ∧
    ([accEventGen1] : List AccEvent) ≠ [] :=
  ⟨(claim_C10 "m/s2" "high").1,
   (claim_C10 "m/s2" "high").2 [accEventGen1]
     [[("2020-01-01 00:00:00.000000", "7", 981/1000, 0, 0),
       ("2020-01-01 00:00:00.100000", "7", 0, 0, 0),
       ("2020-01-01 00:00:00.200000", "7", 0, 0, 0)]]
     (by with_unfolding_all rfl)⟩

/-! ## Claim C9: the GPS normalizer -/

set_option maxRecDepth 100000 in
/-- Counterexample to C9: on a record with unparsable latitude `"abc"` and
non-empty PARSABLE longitude `"1.5"`, the longitude is returned in its
original string form, not converted — the `float` failure on the latitude
jumps out of the `try` block before the longitude is attempted. -/
theorem claim_C9_counterexample :
    transformRawGPS [⟨"t2", "d2", "abc", "1.5"⟩] =
      [("t2", "d2", PyVal.str "abc", PyVal.str "1.5")] ∧
    pyFloat? "1.5" = some (3/2) ∧
    ("1.5" : String).length ≠ 0 := by
  refine ⟨?_, ?_, by decide⟩
  · with_unfolding_all rfl
  · with_unfolding_all rfl

/-- Claim C9 as amended: `transformRawGPS` always returns the tuple (it
is total, never raising), preserving the timestamp and deployment id; the
latitude is converted exactly when non-empty and parsable, otherwise
retained as its original string; the longitude is converted exactly when
non-empty and parsable AND the latitude did not fail to parse (a non-empty
unparsable latitude raises inside the `try` block, skipping the longitude
conversion), otherwise retained as its original string. -/
theorem claim_C9_amended (e : GPSEvent) :
    (transformGPSEvent e).1 = e.timestamp ∧
    (transformGPSEvent e).2.1 = e.deployment_id ∧
    ((transformGPSEvent e).2.2.1 =
      match (if 0 < e.location_lat.length then pyFloat? e.location_lat
             else none) with
      | some q => PyVal.num q
      | none => PyVal.str e.location_lat) ∧
    ((transformGPSEvent e).2.2.2 =
      if 0 < e.location_lat.length ∧ pyFloat? e.location_lat = none then
        PyVal.str e.location_long
      else
        match (if 0 < e.location_long.length then pyFloat? e.location_long
               else none) with
        | some q => PyVal.num q
        | none => PyVal.str e.location_long) := by
  unfold transformGPSEvent
  refine ⟨rfl, rfl, ?_, ?_⟩ <;>
  · by_cases h1 : 0 < e.location_lat.length <;>
      by_cases h2 : 0 < e.location_long.length <;>
      cases hla : pyFloat? e.location_lat <;>
      cases hlo : pyFloat? e.location_long <;>
      simp [h1, h2, hla, hlo]

/-! ## MD5 digest shape lemmas -/

theorem hexChar_mem (n : Nat) : hexChar n ∈ hexDigitChars := by
  unfold hexChar
  rcases Nat.lt_or_ge n hexDigitChars.length with h | h
  · rw [List.getD_eq_getElem?_getD, List.getElem?_eq_getElem h]
    exact List.getElem_mem h
  · rw [List.getD_eq_getElem?_getD, List.getElem?_eq_none h]
    decide

theorem bytesToHexList_mem : ∀ (bs : List Nat) (c : Char),
    c ∈ bytesToHexList bs → c ∈ hexDigitChars
  | [], c, h => by simp [bytesToHexList] at h
  | b :: rest, c, h => by
    simp only [bytesToHexList, List.mem_cons] at h
    rcases h with h | h | h
    · rw [h]; exact hexChar_mem _
    · rw [h]; exact hexChar_mem _
    · exact bytesToHexList_mem rest c h

theorem bytesToHexList_length : ∀ bs : List Nat,
    (bytesToHexList bs).length = 2 * bs.length
  | [] => rfl
  | b :: rest => by
    simp only [bytesToHexList, List.length_cons,
      bytesToHexList_length rest]
    omega

theorem natToBytesLE_length : ∀ c n : Nat, (natToBytesLE c n).length = c
  | 0, _ => rfl
  | c + 1, n => by
    simp [natToBytesLE, natToBytesLE_length c (n / 256)]

theorem md5Digest_length (msg : List Nat) : (md5Digest msg).length = 16 := by
  simp [md5Digest, natToBytesLE_length]

theorem md5hex_length (msg : List Nat) : (md5hex msg).length = 32 := by
  show (String.mk (bytesToHexList (md5Digest msg))).length = 32
  rw [String.length_mk, bytesToHexList_length, md5Digest_length]

/-! ## Claim C1: the license handshake -/

/-- Claim C1: after a 200 first response whose body carries the
marker string, exactly one more request is issued; it repeats
the original ordered parameters with `license-md5` appended at the end,
holding the MD5 hex digest (32 lowercase hexadecimal characters) of the
full raw first-response body, and it carries the first response's session
cookies. -/
theorem claim_C1 (server : HttpRequest → HttpResponse)
    (decodeUtf8 pyStr : List Nat → String)
    (username password mbus mbpw : String) (params : List (String × String))
    (h200 : (server (firstRequest username password params)).status_code
      = 200)
    (hmark : containsBytes licenseMarker
      (server (firstRequest username password params)).content = true) :
    (callMovebankAPI server decodeUtf8 pyStr username password mbus mbpw
        params).2 =
      [firstRequest username password params,
       secondRequest (server (firstRequest username password params))
         mbus mbpw params] ∧
    (secondRequest (server (firstRequest username password params))
        mbus mbpw params).params =
      params ++ [("license-md5",
        md5hex (server (firstRequest username password params)).content)] ∧
    (secondRequest (server (firstRequest username password params))
        mbus mbpw params).cookies =
      some (server (firstRequest username password params)).cookies ∧
    (md5hex
        (server (firstRequest username password params)).content).length
      = 32 ∧
    ∀ c, c ∈ (md5hex
        (server (firstRequest username password params)).content).toList →
      c ∈ hexDigitChars := by
  refine ⟨?_, rfl, rfl, md5hex_length _,
    fun c hc => bytesToHexList_mem _ c hc⟩
  simp only [callMovebankAPI]
  rw [if_pos h200, if_pos hmark]
  split <;> rfl

set_option maxRecDepth 100000 in
/-- Witness for C1 against the concrete challenge server; the digest of
the fixture body is also computed in full and matches the reference MD5
value. -/
theorem claim_C1_witness :
    ((callMovebankAPI serverLicense trivialDecode trivialDecode "alice"
        "pw1" "bob" "pw2" [("entity_type", "study")]).2 =
      [firstRequest "alice" "pw1" [("entity_type", "study")],
       secondRequest (serverLicense (firstRequest "alice" "pw1"
         [("entity_type", "study")])) "bob" "pw2"
         [("entity_type", "study")]] ∧
    (secondRequest (serverLicense (firstRequest "alice" "pw1"
        [("entity_type", "study")])) "bob" "pw2"
        [("entity_type", "study")]).params =
      [("entity_type", "study")] ++ [("license-md5",
        md5hex (serverLicense (firstRequest "alice" "pw1"
          [("entity_type", "study")])).content)] ∧
    (secondRequest (serverLicense (firstRequest "alice" "pw1"
        [("entity_type", "study")])) "bob" "pw2"
        [("entity_type", "study")]).cookies =
      some (serverLicense (firstRequest "alice" "pw1"
        [("entity_type", "study")])).cookies ∧
    (md5hex (serverLicense (firstRequest "alice" "pw1"
        [("entity_type", "study")])).content).length = 32 ∧
    ∀ c, c ∈ (md5hex (serverLicense (firstRequest "alice" "pw1"
        [("entity_type", "study")])).content).toList →
      c ∈ hexDigitChars) ∧
    md5hex licenseBody = "b8710963618c05933c938d09472bf42e" :=
  ⟨claim_C1 serverLicense trivialDecode trivialDecode "alice" "pw1" "bob"
      "pw2" [("entity_type", "study")] (by with_unfolding_all rfl)
      (by with_unfolding_all rfl),
   by with_unfolding_all rfl⟩

/-! ## Claim C7: double rejection -/

/-- Claim C7: when the license handshake second response has status 403
the call returns the empty string rather than raising, and exactly two
requests were issued in total — the handshake performs at most one
retry. -/
theorem claim_C7 (server : HttpRequest → HttpResponse)
    (decodeUtf8 pyStr : List Nat → String)
    (username password mbus mbpw : String) (params : List (String × String))
    (h200 : (server (firstRequest username password params)).status_code
      = 200)
    (hmark : containsBytes licenseMarker
      (server (firstRequest username password params)).content = true)
    (h403 : (server (secondRequest
        (server (firstRequest username password params)) mbus mbpw
        params)).status_code = 403) :
    (callMovebankAPI server decodeUtf8 pyStr username password mbus mbpw
        params).1 = "" ∧
    (callMovebankAPI server decodeUtf8 pyStr username password mbus mbpw
        params).2.length = 2 := by
  simp only [callMovebankAPI]
  rw [if_pos h200, if_pos hmark, if_pos h403]
  exact ⟨rfl, rfl⟩

set_option maxRecDepth 100000 in
/-- Witness for C7 against the concrete rejecting server. -/
theorem claim_C7_witness :
    (callMovebankAPI serverReject trivialDecode trivialDecode "alice"
        "pw1" "bob" "pw2" [("entity_type", "study")]).1 = "" ∧
    (callMovebankAPI serverReject trivialDecode trivialDecode "alice"
        "pw1" "bob" "pw2" [("entity_type", "study")]).2.length = 2 :=
  claim_C7 serverReject trivialDecode trivialDecode "alice" "pw1" "bob"
    "pw2" [("entity_type", "study")] (by with_unfolding_all rfl)
    (by with_unfolding_all rfl) (by with_unfolding_all rfl)

/-! ## Claim C8: credentials of the second request -/

set_option maxRecDepth 100000 in
/-- Counterexample to C8: with client credentials ("alice", "pw1") and
environment credentials ("bob", "pw2"), the reissued second request is
authenticated as ("bob", "pw2") — NOT with the same credentials as the
first request. -/
theorem claim_C8_counterexample :
    ((callMovebankAPI serverLicense trivialDecode trivialDecode "alice"
        "pw1" "bob" "pw2" [("entity_type", "study")]).2.getD 0
        default).auth = ("alice", "pw1") ∧
    ((callMovebankAPI serverLicense trivialDecode trivialDecode "alice"
        "pw1" "bob" "pw2" [("entity_type", "study")]).2.getD 1
        default).auth = ("bob", "pw2") ∧
    (("bob", "pw2") : String × String) ≠ ("alice", "pw1") := by
  refine ⟨?_, ?_, by decide⟩
  · with_unfolding_all rfl
  · with_unfolding_all rfl

/-- Claim C8 as amended: the first request authenticates with the
client stored username and password, but the reissued second request
authenticates with the credentials read from the environment variables
`mbus` and `mbpw`, which are independent of the stored ones. -/
theorem claim_C8_amended (server : HttpRequest → HttpResponse)
    (decodeUtf8 pyStr : List Nat → String)
    (username password mbus mbpw : String) (params : List (String × String))
    (h200 : (server (firstRequest username password params)).status_code
      = 200)
    (hmark : containsBytes licenseMarker
      (server (firstRequest username password params)).content = true) :
    ((callMovebankAPI server decodeUtf8 pyStr username password mbus mbpw
        params).2.getD 0 default).auth = (username, password) ∧
    ((callMovebankAPI server decodeUtf8 pyStr username password mbus mbpw
        params).2.getD 1 default).auth = (mbus, mbpw) := by
  simp only [callMovebankAPI]
  rw [if_pos h200, if_pos hmark]
  split <;> exact ⟨rfl, rfl⟩

set_option maxRecDepth 100000 in
/-- Witness for the amended C8 against the concrete challenge server. -/
theorem claim_C8_amended_witness :
    ((callMovebankAPI serverLicense trivialDecode trivialDecode "carol"
        "pw3" "dave" "pw4" [("entity_type", "event")]).2.getD 0
        default).auth = ("carol", "pw3") ∧
    ((callMovebankAPI serverLicense trivialDecode trivialDecode "carol"
        "pw3" "dave" "pw4" [("entity_type", "event")]).2.getD 1
        default).auth = ("dave", "pw4") :=
  claim_C8_amended serverLicense trivialDecode trivialDecode "carol" "pw3"
    "dave" "pw4" [("entity_type", "event")] (by with_unfolding_all rfl)
    (by with_unfolding_all rfl)

end Movebank
